import Mathlib

/-!
Verification of the aliyunpan parallel-ranged downloader facade
(`internal/file/downloader/downloader.go`, given here as `src/unnamed/part_000`).

The Go code is shallowly embedded: pure computations become Lean functions on
`Int`/`Nat`/`List`, and the effectful steps of `Downloader.Execute` (HTTP
probes, the cloud API calls resolving download URLs, checkpoint I/O, the
monitor run) are abstracted as explicit outcome values supplied through an
environment record, while the control flow of `Execute` itself is translated
line by line.  Events fired via `cmdutil.Trigger` are collected into a trace
list.  Go `int`/`int64` arithmetic is modelled on `Int`; Go integer division
truncates toward zero, which is `Int.tdiv`.  A Go runtime panic (division by
zero, slice index out of range) is modelled as `Option.none`.
-/

namespace Downloader

/-- The lifecycle callback slots of `Downloader` (onExecuteEvent,
onSuccessEvent, onFailedEvent, onFinishEvent, onPauseEvent, onResumeEvent,
onCancelEvent).  Firing a slot through `cmdutil.Trigger` appends the
corresponding tag to an event trace. -/
inductive Event
  | execute
  | success
  | failed
  | finish
  | pause
  | resume
  | cancel
deriving DecidableEq, Repr

/-- Error values that can cross the `Execute` boundary.  The first three are
the named sentinel errors of the downloader package (the source spells the
third `ErrNoWokers`); `apiError` stands for an arbitrary non-nil
`*apierror.ApiError` returned by a cloud API call, `instanceStateError` for a
non-nil error from `initInstanceState`, and `other` for any further monitor
error. -/
inductive Err
  | ErrUnknownRangeGenMode
  | ErrFileDownloadForbidden
  | ErrNoWokers
  | apiError
  | instanceStateError
  | other (code : Nat)
deriving DecidableEq, Repr

/-- `transfer.Range`: a half-open byte interval of the target file.  The
progress cursor and the load counter of the original struct are owned by the
workers and never inspected by the facade paths modelled here, so only the
bounds are kept. -/
structure Range where
  Begin : Int
  End : Int
deriving DecidableEq, Repr

/-- A range generator as seen by the facade: `transfer.RangeListGen` is only
queried through `LoadBlockSize` and `GenRange`.  The facade-visible state is
the total size and the block size it reports; the successive `GenRange`
yields are abstracted separately (they are produced by the `transfer` package,
outside the embedded file). -/
structure RangeListGen where
  totalSize : Int
  blockSize : Int
deriving DecidableEq, Repr

/-- `RangeListGen.LoadBlockSize`. -/
def RangeListGen.LoadBlockSize (g : RangeListGen) : Int :=
  g.blockSize

/-- `transfer.NewRangeListGenBlockSize(totalSize, begin, blockSize)`: a
generator reporting exactly the block size it was constructed with. -/
def NewRangeListGenBlockSize (totalSize beginPos blockSize : Int) : RangeListGen :=
  { totalSize := totalSize, blockSize := blockSize }

/-- Modelled from the spec: `transfer.NewRangeListGenDefault(totalSize, begin,
blockSize, parallel)` lives in the `transfer` package, which is not part of
the given sources.  Per §4.1 of the spec, Default mode produces equal-width
ranges, so the block size it reports is the equal width
`totalSize/parallel` (no claim settled here depends on this value). -/
def NewRangeListGenDefault (totalSize beginPos blockSize parallel : Int) : RangeListGen :=
  { totalSize := totalSize, blockSize := Int.tdiv totalSize parallel }

/-- `transfer.RangeGenMode`: a Go integer enum.  `other` collects every value
that is neither of the two named constants (those hit the `default` arm of
the switch in `SelectBlockSizeAndInitRangeGen`). -/
inductive RangeGenMode
  | RangeGenMode_Default
  | RangeGenMode_BlockSize
  | other (n : Nat)
deriving DecidableEq, Repr

/-- The facade-visible part of `transfer.DownloadStatus`: the total size and
the installed range generator.  (`NewDownloadStatus` starts with no
generator; `SetTotalSize` fills the size.) -/
structure DownloadStatus where
  totalSize : Int
  rangeListGen : Option RangeListGen
deriving DecidableEq, Repr

/-- `DownloadStatus.SetRangeListGen`. -/
def DownloadStatus.SetRangeListGen (s : DownloadStatus) (g : RangeListGen) : DownloadStatus :=
  { s with rangeListGen := some g }

/-- The relevant fields of the downloader `Config`: range-generation mode,
block-size hint, and the preferred slice parallelism. -/
structure Config where
  Mode : RangeGenMode
  BlockSize : Int
  SliceParallel : Int
deriving DecidableEq, Repr

/-- `Downloader.SelectParallel` (downloader.go).  `minParallelSize` is the
package constant `MinParallelSize` (declared outside the given file), passed
here as a parameter.  Translated clause for clause:

    isRange := instanceRangeList != nil && len(instanceRangeList) > 0
    if prefParallel > 0 { parallel = prefParallel }
    else if isRange    { parallel = len(instanceRangeList) }
    else {
      parallel = maxParallel
      if int64(parallel) > totalSize/int64(MinParallelSize) {
        parallel = int(totalSize/int64(MinParallelSize)) + 1
      }
    }
    if parallel < 1 { parallel = 1 }

(a nil slice has length 0, so the nil test adds nothing to `isRange`). -/
def SelectParallel (minParallelSize : Int) (prefParallel maxParallel : Int)
    (totalSize : Int) (instanceRangeList : List Range) : Int :=
  let isRange := 0 < instanceRangeList.length
  let parallel : Int :=
    if prefParallel > 0 then prefParallel
    else if isRange then (instanceRangeList.length : Int)
    else
      if maxParallel > Int.tdiv totalSize minParallelSize then
        Int.tdiv totalSize minParallelSize + 1
      else maxParallel
  if parallel < 1 then 1 else parallel

/-- `Downloader.SelectBlockSizeAndInitRangeGen` (downloader.go).  Returns the
chosen block size together with the status after `SetRangeListGen`, or
`ErrUnknownRangeGenMode`.  The early single-thread return leaves the status
untouched; the error return happens before `SetRangeListGen`. -/
def SelectBlockSizeAndInitRangeGen (mode : RangeGenMode) (configBlockSize : Int)
    (status : DownloadStatus) (parallel : Int) :
    Except Err (Int × DownloadStatus) :=
  if parallel = 1 then
    Except.ok (-1, status)
  else
    match status.rangeListGen with
    | none =>
      match mode with
      | RangeGenMode.RangeGenMode_Default =>
        let gen := NewRangeListGenDefault status.totalSize 0 0 parallel
        Except.ok (gen.LoadBlockSize, status.SetRangeListGen gen)
      | RangeGenMode.RangeGenMode_BlockSize =>
        let b2 := Int.tdiv status.totalSize parallel + 1
        let blockSize := if b2 > configBlockSize then configBlockSize else b2
        let gen := NewRangeListGenBlockSize status.totalSize 0 blockSize
        Except.ok (blockSize, status.SetRangeListGen gen)
      | RangeGenMode.other _ =>
        Except.error Err.ErrUnknownRangeGenMode
    | some gen =>
      Except.ok (gen.LoadBlockSize, status.SetRangeListGen gen)

/-- Projection of the block size out of a `SelectBlockSizeAndInitRangeGen`
result. -/
def blockSizeOf (r : Except Err (Int × DownloadStatus)) : Option Int :=
  match r with
  | Except.ok (b, _) => some b
  | Except.error _ => none

/-- The formula the spec states for BlockSize mode, written from the spec's
words for comparison with the source: `blockSize = min(blockSizeHint,
⌈totalSize/parallel⌉ + 1)` (§4.1).  The ceiling of a division of nonnegative
values is `(totalSize + parallel - 1) / parallel`. -/
def specCeilBlockSize (blockSizeHint totalSize parallel : Int) : Int :=
  min blockSizeHint (Int.tdiv (totalSize + parallel - 1) parallel + 1)

/-! ## URL-pool probing (`checkLoadBalancers`) -/

/-- The facade-visible part of the `*http.Response` a probe returns: the
status code and whether the response carries its originating `*http.Request`
(`handleLoadBalancer` skips a nil request). -/
structure ProbeResp where
  StatusCode : Nat
  Request : Bool
deriving DecidableEq, Repr

/-- Outcome of one `durlCheckFunc` probe of an auxiliary URL: either a non-nil
error, or a content length together with the response. -/
inductive ProbeOutcome
  | fail
  | ok (contentLength : Int) (resp : ProbeResp)
deriving DecidableEq, Repr

/-- One auxiliary URL of `der.loadBalansers` paired with its probe outcome. -/
structure ProbeEntry where
  url : String
  outcome : ProbeOutcome
deriving DecidableEq, Repr

/-- An entry of the URL pool (`LoadBalancerResponse`). -/
structure LoadBalancerResponse where
  URL : String
deriving DecidableEq, Repr

/-- The admission decision the goroutine body of `checkLoadBalancers` makes
for one auxiliary URL (`fileSize` is `der.fileInfo.FileSize`):

    if subErr != nil { return }
    switch subResp.StatusCode / 100 {
    case 2:          // succeed
    case 4, 5:       // error
      ...; return
    }
    if der.fileInfo.FileSize != subContentLength { return }
    handleLoadBalancer(subResp.Request)   // skips a nil request

Only status classes 4 and 5 hit a switch arm that returns; every other class
(including 1xx and 3xx) falls out of the switch and proceeds to the length
check. -/
def probeAdmits (fileSize : Int) (oc : ProbeOutcome) : Bool :=
  match oc with
  | ProbeOutcome.fail => false
  | ProbeOutcome.ok contentLength resp =>
    if resp.StatusCode / 100 = 4 ∨ resp.StatusCode / 100 = 5 then false
    else if fileSize ≠ contentLength then false
    else resp.Request

/-- `Downloader.checkLoadBalancers`: the pool always starts with the primary
entry (the source literally appends `URL: "der.durl"` first), followed by the
admitted auxiliaries.  The goroutines append concurrently; the model fixes
list order, which no settled claim depends on.  The `TryHTTP` scheme
downgrade only rewrites the URL string and is omitted. -/
def checkLoadBalancers (fileSize : Int) (loadBalansers : List ProbeEntry) :
    List LoadBalancerResponse :=
  { URL := "der.durl" } ::
    (loadBalansers.filter (fun e => probeAdmits fileSize e.outcome)).map
      (fun e => { URL := e.url })

/-! ## Download-URL resolution
(`getFileSourceDownloadUrl` / `getAlbumSourceDownloadUrl`) -/

/-- A resolved download URL bound to its account client
(`panClientDownloadUrlEntity`; the `PanClient`/`FileInfo` handles are kept
only as the identifiers the worker loop reads from them). -/
structure panClientDownloadUrlEntity where
  DriveId : String
  FileId : String
  FileUrl : String
deriving DecidableEq, Repr

/-- Outcome of one `GetFileDownloadUrl` API call.  `invalid` covers the three
rejected shapes: nil result, empty `Url`, and a URL carrying the illegal
download marker (`aliyunpan.IllegalDownloadUrlPre` + `"fix"` constant). -/
inductive DurlOutcome
  | apiErr
  | invalid
  | valid (url : String)
deriving DecidableEq, Repr

/-- Outcome of the main account's `GetUserInfo` call:
`err != nil` / `openUserInfo == nil` / success. -/
inductive UserInfoOutcome
  | uiErr
  | uiNil
  | uiOk (FileDriveId ResourceDriveId : String)
deriving DecidableEq, Repr

/-- Outcomes of the three API calls made per auxiliary account
(`GetUserInfo`, `FileInfoByPath`, `GetFileDownloadUrl`).  `userInfo = none`
models `err1 != nil`; `fileInfo = none` models `err2 != nil ||
panfileInfo == nil`, otherwise it carries `panfileInfo.FileId`. -/
structure SubEnv where
  userInfo : Option (String × String)
  fileInfo : Option String
  durl : DurlOutcome
deriving DecidableEq, Repr

/-- The per-auxiliary-account body of the loop in
`getFileSourceDownloadUrl`: pick the drive id matching the main account's
drive category, look the file up by path, fetch its download URL; any
failure skips this account (`continue`). -/
def subClientUrl (mainDriveName : String) (sub : SubEnv) :
    Option panClientDownloadUrlEntity :=
  match sub.userInfo with
  | none => none
  | some (fileDriveId, resourceDriveId) =>
    let driveId :=
      if mainDriveName = "File" then fileDriveId
      else if mainDriveName = "Resource" then resourceDriveId
      else ""
    match sub.fileInfo with
    | none => none
    | some fileId =>
      match sub.durl with
      | DurlOutcome.valid url =>
        some { DriveId := driveId, FileId := fileId, FileUrl := url }
      | _ => none

/-- What a URL-resolution function observably does: the events it fires,
whether it called `removeInstanceState`, and its two return values `(result,
err)` — `urls = none` models a nil slice. -/
structure ResolveOutput where
  events : List Event
  removedInstance : Bool
  urls : Option (List panClientDownloadUrlEntity)
  err : Option Err
deriving DecidableEq, Repr

/-- `Downloader.getFileSourceDownloadUrl`, with the API calls abstracted as
outcome values.  `driveId` is `der.driveId`, `mainFileId` is
`der.fileInfo.FileId`.  The main account's entity is appended before the
`GetUserInfo` call, but every failure of that call returns a nil slice, so a
non-nil result always holds the main entity first. -/
def getFileSourceDownloadUrl (driveId mainFileId : String)
    (mainDurl : DurlOutcome) (userInfo : UserInfoOutcome) (subs : List SubEnv) :
    ResolveOutput :=
  match mainDurl with
  | DurlOutcome.apiErr =>
    { events := [Event.cancel], removedInstance := false,
      urls := none, err := some Err.apiError }
  | DurlOutcome.invalid =>
    { events := [Event.cancel, Event.failed], removedInstance := true,
      urls := none, err := some Err.ErrFileDownloadForbidden }
  | DurlOutcome.valid url =>
    let mainEntity : panClientDownloadUrlEntity :=
      { DriveId := driveId, FileId := mainFileId, FileUrl := url }
    match userInfo with
    | UserInfoOutcome.uiErr =>
      { events := [], removedInstance := false, urls := none,
        err := some Err.apiError }
    | UserInfoOutcome.uiNil =>
      { events := [], removedInstance := false, urls := none, err := none }
    | UserInfoOutcome.uiOk fileDriveId resourceDriveId =>
      let mainDriveName :=
        if fileDriveId = driveId then "File"
        else if resourceDriveId = driveId then "Resource"
        else ""
      { events := [], removedInstance := false,
        urls := some (mainEntity :: subs.filterMap (subClientUrl mainDriveName)),
        err := none }

/-- The `StreamsUrl` alternatives of an album download-url response. -/
structure StreamsUrl where
  Mov : String
  Heic : String
  Jpeg : String
deriving DecidableEq, Repr

/-- Outcome of the `ShareAlbumGetFileDownloadUrl` API call. -/
inductive AlbumDurlOutcome
  | apiErr
  | ok (streamsUrl : Option StreamsUrl) (url : String)
deriving DecidableEq, Repr

/-- `Downloader.getAlbumSourceDownloadUrl`.  `fileExtension` is
`der.fileInfo.FileExtension`; the live-photo branch selects Mov for video
files and Heic/Jpeg otherwise, a plain image uses `durl.Url`, and an empty
`realUrl` is the forbidden case. -/
def getAlbumSourceDownloadUrl (driveId fileId fileExtension : String)
    (outcome : AlbumDurlOutcome) : ResolveOutput :=
  match outcome with
  | AlbumDurlOutcome.apiErr =>
    { events := [Event.cancel], removedInstance := false,
      urls := none, err := some Err.apiError }
  | AlbumDurlOutcome.ok streamsUrl url =>
    let realUrl :=
      match streamsUrl with
      | some s =>
        if fileExtension.toLower = "mov" then
          (if s.Mov ≠ "" then s.Mov else "")
        else
          (if s.Heic ≠ "" then s.Heic
           else if s.Jpeg ≠ "" then s.Jpeg else "")
      | none => if url ≠ "" then url else ""
    if realUrl = "" then
      { events := [Event.cancel, Event.failed], removedInstance := true,
        urls := none, err := some Err.ErrFileDownloadForbidden }
    else
      { events := [], removedInstance := false,
        urls := some [{ DriveId := driveId, FileId := fileId, FileUrl := realUrl }],
        err := none }

/-- The abstracted API environment of a resolution: the file source resolves
through the main account plus auxiliaries, the album source through one album
call (the constructor mirrors `der.filePanSource == global.AlbumSource`). -/
inductive ResolveEnv
  | fileSrc (mainDurl : DurlOutcome) (userInfo : UserInfoOutcome) (subs : List SubEnv)
  | albumSrc (fileExtension : String) (outcome : AlbumDurlOutcome)
deriving DecidableEq, Repr

/-- `Downloader.getFileAllClientDownloadUrl`: dispatch on the pan source. -/
def getFileAllClientDownloadUrl (driveId fileId : String) (r : ResolveEnv) :
    ResolveOutput :=
  match r with
  | ResolveEnv.albumSrc ext oc => getAlbumSourceDownloadUrl driveId fileId ext oc
  | ResolveEnv.fileSrc mainDurl userInfo subs =>
    getFileSourceDownloadUrl driveId fileId mainDurl userInfo subs

/-! ## Worker construction (the loop after `factorNum` in `Execute`) -/

/-- A download worker as constructed in `Execute` (`NewWorker(k, driveId,
fileId, realUrl, writer, speedsStat)` followed by `SetRange(r)`); the client,
mutex and sink handles carry no facade-visible data. -/
structure Worker where
  id : Nat
  DriveId : String
  FileId : String
  url : String
  range : Range
deriving DecidableEq, Repr

/-- Modelled from the spec: `LoadBalancerResponseList.SequentialGet` is
defined in a sibling file of the downloader package that is not among the
given sources.  Per §4.3 of the spec it returns pool URLs in admission order,
cycling, and nil on an empty pool; `i` counts the calls made so far. -/
def SequentialGet (pool : List LoadBalancerResponse) (i : Nat) :
    Option LoadBalancerResponse :=
  if h : pool.length = 0 then none
  else some (pool.get ⟨i % pool.length, Nat.mod_lt i (Nat.pos_of_ne_zero h)⟩)

/-- The body of the worker-construction loop, iteration index `k`:

    panClientUrl := panClientFileUrl[int(k/factorNum)]
    loadBalancer := loadBalancerResponseList.SequentialGet()
    if loadBalancer == nil { continue }
    ... NewWorker ... ; der.monitor.Append(worker)

`factorNum = 0` makes `k/factorNum` a Go integer division by zero and an
index past `len(panClientFileUrl)` an out-of-range slice access; both are
runtime panics, modelled as `none`. -/
def buildWorkersLoop (factorNum : Nat) (urls : List panClientDownloadUrlEntity)
    (pool : List LoadBalancerResponse) : Nat → List Range → Option (List Worker)
  | _, [] => some []
  | k, r :: rest =>
    if factorNum = 0 then none
    else
      match urls.get? (k / factorNum) with
      | none => none
      | some u =>
        match SequentialGet pool k with
        | none => buildWorkersLoop factorNum urls pool (k + 1) rest
        | some _ =>
          match buildWorkersLoop factorNum urls pool (k + 1) rest with
          | none => none
          | some ws =>
            some ({ id := k, DriveId := u.DriveId, FileId := u.FileId,
                    url := u.FileUrl, range := r } :: ws)

/-- The worker-construction block of `Execute`:

    factorNum := len(bii.Ranges) / len(panClientFileUrl)
    for k, r := range bii.Ranges { ... }

computing `factorNum` itself divides by zero when the URL list is empty. -/
def buildWorkers (ranges : List Range) (urls : List panClientDownloadUrlEntity)
    (pool : List LoadBalancerResponse) : Option (List Worker) :=
  if urls.length = 0 then none
  else buildWorkersLoop (ranges.length / urls.length) urls pool 0 ranges

/-! ## The `Execute` session -/

/-- The range-list block of `Execute` ("数据平均分配给各个线程"): a non-empty
checkpoint list is kept verbatim; otherwise one full range for a single
thread, or up to `parallel` ranges drawn from the installed generator.
`genYields` abstracts the successive non-nil `GenRange()` results (produced
by the `transfer` package, outside the embedded file). -/
def buildInitialRanges (biiRanges : List Range) (parallel : Int)
    (fileSize : Int) (genYields : List Range) : List Range :=
  if 0 < biiRanges.length then biiRanges
  else if parallel = 1 then [{ Begin := 0, End := fileSize }]
  else genYields.take parallel.toNat

/-- `transfer.DownloadInstanceInfo` as read back from the checkpoint store:
the persisted range list and status. -/
structure DownloadInstanceInfo where
  Ranges : List Range
  DownloadStatus : Option Downloader.DownloadStatus
deriving DecidableEq, Repr

/-- Every effectful step of `Execute`, abstracted as the outcome it would
observe: the file entity fields it reads, the probe results, checkpoint
loading, URL resolution, the generator yields, and the error state of the
monitor after its run (`monitorErr = none` is a successful run;
`some ErrNoWokers` is the monitor's all-workers-failed error). -/
structure ExecEnv where
  fileSize : Int
  driveId : String
  fileId : String
  probes : List ProbeEntry
  initStateErr : Option Err
  instanceInfo : Option DownloadInstanceInfo
  resolve : ResolveEnv
  genYields : List Range
  monitorErr : Option Err
deriving DecidableEq, Repr

/-- The observable outcome of one `Execute` call: the ordered event trace,
which phases ran (URL probing, checkpoint-store init, URL resolution, the
monitor), whether the checkpoint was removed, the workers appended to the
monitor, a flag for a Go runtime panic, and the returned error (`none` =
nil). -/
structure ExecOutput where
  events : List Event
  probed : Bool
  initedState : Bool
  resolved : Bool
  monitorRan : Bool
  removedInstance : Bool
  workers : List Worker
  panicked : Bool
  ret : Option Err
deriving DecidableEq, Repr

/-- The tail of `Execute` from `cmdutil.Trigger(der.onExecuteEvent)` on: the
monitor runs, then `err = der.monitor.Err()` is inspected — a nil error fires
Success and removes the checkpoint, the `ErrNoWokers`-with-zero-size case is
likewise treated as success, Finish always fires last, and the monitor's
error is returned unchanged.  `r` carries the events the resolution step
already fired. -/
def executeMonitorPhase (r : ResolveOutput) (ws : List Worker)
    (monitorErr : Option Err) (fileSize : Int) : ExecOutput :=
  match monitorErr with
  | none =>
    { events := r.events ++ [Event.execute, Event.success, Event.finish],
      probed := true, initedState := true, resolved := true,
      monitorRan := true, removedInstance := true, workers := ws,
      panicked := false, ret := none }
  | some e =>
    if e = Err.ErrNoWokers ∧ fileSize = 0 then
      { events := r.events ++ [Event.execute, Event.success, Event.finish],
        probed := true, initedState := true, resolved := true,
        monitorRan := true, removedInstance := true, workers := ws,
        panicked := false, ret := some e }
    else
      { events := r.events ++ [Event.execute, Event.finish],
        probed := true, initedState := true, resolved := true,
        monitorRan := true, removedInstance := r.removedInstance,
        workers := ws, panicked := false, ret := some e }

/-- The tail of `Execute` from the `getFileAllClientDownloadUrl` error check
on: on a non-nil error or a nil URL list fire Cancel and return the error,
otherwise construct the workers (`buildWorkers`, which can panic) and enter
the monitor phase. -/
def executeWorkerPhase (pool : List LoadBalancerResponse) (ranges : List Range)
    (r : ResolveOutput) (monitorErr : Option Err) (fileSize : Int) : ExecOutput :=
  match r.urls, r.err with
  | some urls, none =>
    match buildWorkers ranges urls pool with
    | none =>
      { events := r.events, probed := true, initedState := true,
        resolved := true, monitorRan := false,
        removedInstance := r.removedInstance, workers := [],
        panicked := true, ret := none }
    | some ws => executeMonitorPhase r ws monitorErr fileSize
  | _, _ =>
    { events := r.events ++ [Event.cancel], probed := true,
      initedState := true, resolved := true, monitorRan := false,
      removedInstance := r.removedInstance, workers := [],
      panicked := false, ret := r.err }

/-- `Downloader.Execute`, translated branch by branch.
`minParallelSize` and `maxParallelWorkerCount` stand for the package
constants `MinParallelSize` and `MaxParallelWorkerCount` declared outside the
given file.  In order: the zero-size short circuit, `checkLoadBalancers`,
`initInstanceState`, checkpoint restore, `SelectParallel`,
`SelectBlockSizeAndInitRangeGen` (error returned before the monitor),
range-list construction, then `executeWorkerPhase` (URL resolution check,
worker construction, monitor run). -/
def Execute (minParallelSize maxParallelWorkerCount : Int) (config : Config)
    (env : ExecEnv) : ExecOutput :=
  if env.fileSize = 0 then
    { events := [Event.finish], probed := false, initedState := false,
      resolved := false, monitorRan := false, removedInstance := false,
      workers := [], panicked := false, ret := none }
  else
    let pool := checkLoadBalancers env.fileSize env.probes
    match env.initStateErr with
    | some e =>
      { events := [], probed := true, initedState := true, resolved := false,
        monitorRan := false, removedInstance := false, workers := [],
        panicked := false, ret := some e }
    | none =>
      let bii := env.instanceInfo.getD { Ranges := [], DownloadStatus := none }
      let status := bii.DownloadStatus.getD
        { totalSize := env.fileSize, rangeListGen := none }
      let parallel := SelectParallel minParallelSize config.SliceParallel
        maxParallelWorkerCount status.totalSize bii.Ranges
      match SelectBlockSizeAndInitRangeGen config.Mode config.BlockSize
          status parallel with
      | Except.error e =>
        { events := [], probed := true, initedState := true, resolved := false,
          monitorRan := false, removedInstance := false, workers := [],
          panicked := false, ret := some e }
      | Except.ok _ =>
        executeWorkerPhase pool
          (buildInitialRanges bii.Ranges parallel env.fileSize env.genYields)
          (getFileAllClientDownloadUrl env.driveId env.fileId env.resolve)
          env.monitorErr env.fileSize

/-! ## Pause / Resume / Cancel -/

/-- Operations forwarded to the monitor or its cancellation context by the
control methods. -/
inductive MonitorOp
  | monitorPause
  | monitorResume
  | ctxCancel
deriving DecidableEq, Repr

/-- The control-relevant state of a `Downloader`: whether `der.monitor` and
`der.monitorCancelFunc` are non-nil (`lazyInit`, run at the top of `Execute`,
is what first installs the monitor; the cancel func is installed later in
`Execute`). -/
structure DownloaderCtl where
  monitor : Option Unit
  monitorCancelFunc : Option Unit
deriving DecidableEq, Repr

/-- `NewDownloader` leaves both the monitor and the cancel func nil. -/
def NewDownloader : DownloaderCtl :=
  { monitor := none, monitorCancelFunc := none }

/-- `Downloader.Pause`: a nil monitor returns immediately; otherwise the
pause event fires and the monitor is paused.  The result is the pair of the
events fired and the monitor operations performed. -/
def Pause (d : DownloaderCtl) : List Event × List MonitorOp :=
  match d.monitor with
  | none => ([], [])
  | some _ => ([Event.pause], [MonitorOp.monitorPause])

/-- `Downloader.Resume`, same shape as `Pause`. -/
def Resume (d : DownloaderCtl) : List Event × List MonitorOp :=
  match d.monitor with
  | none => ([], [])
  | some _ => ([Event.resume], [MonitorOp.monitorResume])

/-- `Downloader.Cancel`: a nil monitor returns immediately; otherwise the
cancel event fires and `cmdutil.Trigger(der.monitorCancelFunc)` cancels the
monitor context when that func is non-nil. -/
def Cancel (d : DownloaderCtl) : List Event × List MonitorOp :=
  match d.monitor with
  | none => ([], [])
  | some _ =>
    ([Event.cancel],
      match d.monitorCancelFunc with
      | none => []
      | some _ => [MonitorOp.ctxCancel])

/-! ## Helper lemmas -/

/-- A positive preferred parallelism wins in `SelectParallel`, whatever the
checkpoint range list holds. -/
lemma selectParallel_pref_pos (minPS maxP total : Int) (pref : Int)
    (l : List Range) (h : 0 < pref) :
    SelectParallel minPS pref maxP total l = pref := by
  unfold SelectParallel
  simp only [gt_iff_lt, h, if_true]
  rw [if_neg]
  omega

/-- `RangeGenMode_Default` never reaches the error arm of
`SelectBlockSizeAndInitRangeGen`. -/
lemma selectBlockSize_default_ok (bs : Int) (st : DownloadStatus) (p : Int) :
    ∃ x, SelectBlockSizeAndInitRangeGen RangeGenMode.RangeGenMode_Default bs st p
      = Except.ok x := by
  unfold SelectBlockSizeAndInitRangeGen
  split_ifs with h
  · exact ⟨_, rfl⟩
  · cases st.rangeListGen <;> exact ⟨_, rfl⟩

/-- An unrecognized mode reaches the error arm exactly when the parallel
count is not 1 and no generator is installed. -/
lemma selectBlockSize_other_err (n : Nat) (bs : Int) (st : DownloadStatus)
    (p : Int) (hgen : st.rangeListGen = none) (hp : p ≠ 1) :
    SelectBlockSizeAndInitRangeGen (RangeGenMode.other n) bs st p
      = Except.error Err.ErrUnknownRangeGenMode := by
  unfold SelectBlockSizeAndInitRangeGen
  rw [if_neg hp, hgen]

/-- The monitor phase always returns `der.monitor.Err()` unchanged. -/
lemma monitorPhase_ret (r : ResolveOutput) (ws : List Worker)
    (me : Option Err) (fs : Int) :
    (executeMonitorPhase r ws me fs).ret = me := by
  cases me with
  | none => rfl
  | some e =>
    simp only [executeMonitorPhase]
    split_ifs <;> rfl

/-- The worker phase either stops before the monitor or returns the
monitor's error. -/
lemma workerPhase_cases (pool : List LoadBalancerResponse) (rs : List Range)
    (r : ResolveOutput) (me : Option Err) (fs : Int) :
    (executeWorkerPhase pool rs r me fs).monitorRan = false ∨
    (executeWorkerPhase pool rs r me fs).ret = me := by
  unfold executeWorkerPhase
  split
  · split
    · left; rfl
    · right; exact monitorPhase_ret ..
  · left; rfl

/-- Whole-session dichotomy: either the monitor never ran, or `Execute`
returns exactly the monitor's error. -/
lemma execute_cases (minPS maxP : Int) (cfg : Config) (env : ExecEnv) :
    (Execute minPS maxP cfg env).monitorRan = false ∨
    (Execute minPS maxP cfg env).ret = env.monitorErr := by
  unfold Execute
  split
  · left; rfl
  · split
    · left; rfl
    · dsimp only
      split
      · left; rfl
      · exact workerPhase_cases ..

/-- A resolution that returns `ErrFileDownloadForbidden` always has the
invalid-primary-URL shape: Cancel fired, then the checkpoint removed, then
Fail fired, and a nil URL list returned. -/
lemma resolve_forbidden_shape (driveId fileId : String) (r : ResolveEnv)
    (h : (getFileAllClientDownloadUrl driveId fileId r).err
      = some Err.ErrFileDownloadForbidden) :
    getFileAllClientDownloadUrl driveId fileId r =
      { events := [Event.cancel, Event.failed], removedInstance := true,
        urls := none, err := some Err.ErrFileDownloadForbidden } := by
  rcases r with ⟨md, ui, subs⟩ | ⟨ext, oc⟩
  · cases md with
    | apiErr => simp [getFileAllClientDownloadUrl, getFileSourceDownloadUrl] at h
    | invalid => rfl
    | valid url =>
      cases ui <;>
        simp [getFileAllClientDownloadUrl, getFileSourceDownloadUrl] at h
  · cases oc with
    | apiErr => simp [getFileAllClientDownloadUrl, getAlbumSourceDownloadUrl] at h
    | ok s u =>
      simp only [getFileAllClientDownloadUrl, getAlbumSourceDownloadUrl] at h ⊢
      split_ifs at h ⊢ <;> simp_all

/-! ## Claim theorems -/

/-- C2, counterexample: with a positive configured parallelism (here 2) and a
non-empty checkpoint list of five ranges, `SelectParallel` does not return
the range-list length — the preferred setting wins, refuting the claimed
precedence of the checkpoint. -/
theorem c2_pref_overrides_checkpoint_cex :
    SelectParallel 1024 2 50 10000
      [{ Begin := 0, End := 2000 }, { Begin := 2000, End := 4000 },
       { Begin := 4000, End := 6000 }, { Begin := 6000, End := 8000 },
       { Begin := 8000, End := 10000 }] = 2 ∧
    ¬ SelectParallel 1024 2 50 10000
      [{ Begin := 0, End := 2000 }, { Begin := 2000, End := 4000 },
       { Begin := 4000, End := 6000 }, { Begin := 6000, End := 8000 },
       { Begin := 8000, End := 10000 }] =
      (([{ Begin := 0, End := 2000 }, { Begin := 2000, End := 4000 },
         { Begin := 4000, End := 6000 }, { Begin := 6000, End := 8000 },
         { Begin := 8000, End := 10000 }] : List Range).length : Int) := by
  decide

/-- C2, amended: a non-empty checkpoint Range list determines the parallel
count only when the configured preferred parallelism is not positive; in
that case `SelectParallel` returns the length of the list. -/
theorem c2_checkpoint_len_when_pref_nonpos (minPS maxP total : Int)
    (pref : Int) (l : List Range) (hpref : ¬ pref > 0) (hl : 0 < l.length) :
    SelectParallel minPS pref maxP total l = (l.length : Int) := by
  unfold SelectParallel
  simp only [hpref, if_false, hl, if_true]
  rw [if_neg]
  omega

/-- C2, witness: the amended theorem applied to a zero preference and a
two-range checkpoint list. -/
theorem c2_checkpoint_len_witness :
    SelectParallel 1024 0 50 10000
      [{ Begin := 0, End := 5000 }, { Begin := 5000, End := 10000 }] = 2 :=
  c2_checkpoint_len_when_pref_nonpos 1024 50 10000 0
    [{ Begin := 0, End := 5000 }, { Begin := 5000, End := 10000 }]
    (by decide) (by decide)

/-- C4, counterexample: a probe answering 302 (a 3xx status, outside 2xx)
with the matching content length is admitted to the URL pool, refuting the
claim that any URL whose status is outside 2xx is rejected. -/
theorem c4_redirect_admitted_cex :
    (302 : Nat) / 100 ≠ 2 ∧
    probeAdmits 100
      (ProbeOutcome.ok 100 { StatusCode := 302, Request := true }) = true ∧
    checkLoadBalancers 100
      [{ url := "u", outcome :=
          ProbeOutcome.ok 100 { StatusCode := 302, Request := true } }] =
      [{ URL := "der.durl" }, { URL := "u" }] := by
  decide

/-- C4, amended: a probed auxiliary URL is admitted iff the probe did not
error, its status class is neither 4 nor 5 (so 1xx and 3xx fall through and
are admitted), its Content-Length equals the session total size, and the
response carries its originating request; probe errors are silently
discarded. -/
theorem c4_probe_admission_iff (fileSize : Int) (oc : ProbeOutcome) :
    probeAdmits fileSize oc = true ↔
    (∃ cl resp, oc = ProbeOutcome.ok cl resp ∧
      resp.StatusCode / 100 ≠ 4 ∧ resp.StatusCode / 100 ≠ 5 ∧
      cl = fileSize ∧ resp.Request = true) := by
  cases oc with
  | fail => simp [probeAdmits]
  | ok cl resp =>
    simp only [probeAdmits]
    split_ifs with h1 h2
    · simp
      intro cl1 resp1 h
      tauto
    · simp
      intro cl1 resp1 h
      tauto
    · constructor
      · intro hr
        exact ⟨cl, resp, rfl, by tauto, by tauto, by omega, hr⟩
      · rintro ⟨cl1, resp1, heq, h4, h5, hlen, hreq⟩
        cases heq
        exact hreq

/-- C7, counterexample: in BlockSize mode with hint 100, total size 10 and
parallel 3, the source computes `min(100, 10/3 + 1) = 4` (Go floor
division), while the spec formula `min(100, ceil(10/3) + 1)` gives 5. -/
theorem c7_ceil_formula_cex :
    blockSizeOf (SelectBlockSizeAndInitRangeGen
      RangeGenMode.RangeGenMode_BlockSize 100
      { totalSize := 10, rangeListGen := none } 3) = some 4 ∧
    specCeilBlockSize 100 10 3 = 5 := by
  decide

/-- C7, amended: in BlockSize mode, with parallel ≠ 1 and no generator
restored, the effective block size is
`min(blockSizeHint, ⌊totalSize/parallel⌋ + 1)` — floor division, not
ceiling. -/
theorem c7_blockSize_floor_min (hint : Int) (st : DownloadStatus) (p : Int)
    (hgen : st.rangeListGen = none) (hp : p ≠ 1) :
    blockSizeOf (SelectBlockSizeAndInitRangeGen
      RangeGenMode.RangeGenMode_BlockSize hint st p)
      = some (min hint (Int.tdiv st.totalSize p + 1)) := by
  unfold SelectBlockSizeAndInitRangeGen
  rw [if_neg hp, hgen]
  unfold blockSizeOf
  simp only []
  split_ifs with h
  · rw [min_eq_left h.le]
  · rw [min_eq_right (not_lt.mp h)]

/-- C7, witness: the amended theorem evaluated at hint 100, total size 10,
parallel 3, yielding block size 4. -/
theorem c7_blockSize_floor_witness :
    blockSizeOf (SelectBlockSizeAndInitRangeGen
      RangeGenMode.RangeGenMode_BlockSize 100
      { totalSize := 10, rangeListGen := none } 3) = some 4 := by
  rw [c7_blockSize_floor_min 100 { totalSize := 10, rangeListGen := none } 3
    rfl (by decide)]
  decide

/-- C8, counterexample: a session restoring a checkpoint of two ranges with
a configured parallelism of 1 has effective parallel count 1, yet the range
list `Execute` uses is the restored two-range list, not the single range
`[0, totalSize)` — refuting the claim for sessions with a checkpoint. -/
theorem c8_checkpoint_ranges_cex :
    SelectParallel 1024 1 50 9
      [{ Begin := 0, End := 5 }, { Begin := 5, End := 9 }] = 1 ∧
    buildInitialRanges [{ Begin := 0, End := 5 }, { Begin := 5, End := 9 }]
      1 9 [] = [{ Begin := 0, End := 5 }, { Begin := 5, End := 9 }] ∧
    buildInitialRanges [{ Begin := 0, End := 5 }, { Begin := 5, End := 9 }]
      1 9 [] ≠ [{ Begin := 0, End := 9 }] := by
  decide

/-- C8, amended: with effective parallel count 1, the planner yields the
sentinel block size −1 (leaving the status untouched), and when no
checkpoint Range list is present the initial range list is the single range
`[0, totalSize)`; a restored checkpoint list is reused verbatim instead. -/
theorem c8_single_thread_plan (mode : RangeGenMode) (cfgBS : Int)
    (st : DownloadStatus) (total : Int) (gy : List Range) :
    SelectBlockSizeAndInitRangeGen mode cfgBS st 1 = Except.ok (-1, st) ∧
    buildInitialRanges [] 1 total gy = [{ Begin := 0, End := total }] := by
  constructor
  · simp [SelectBlockSizeAndInitRangeGen]
  · simp [buildInitialRanges]

/-- C10: before `Execute` runs `lazyInit`, the monitor is nil (as after
`NewDownloader`), and then `Pause`, `Resume` and `Cancel` all return
immediately, firing no event and performing no monitor operation. -/
theorem c10_ctl_noop_without_monitor (d : DownloaderCtl)
    (h : d.monitor = none) :
    Pause d = ([], []) ∧ Resume d = ([], []) ∧ Cancel d = ([], []) := by
  simp [Pause, Resume, Cancel, h]

/-- C10, witness: the no-op theorem applied to the freshly constructed
downloader. -/
theorem c10_ctl_noop_witness :
    Pause NewDownloader = ([], []) ∧ Resume NewDownloader = ([], []) ∧
    Cancel NewDownloader = ([], []) :=
  c10_ctl_noop_without_monitor NewDownloader rfl

/-- C1: a session that reaches worker construction with one range (a
single-thread download) and two resolved account URLs computes
`factorNum = 1/2 = 0`, so `k/factorNum` divides by zero — a Go runtime
panic (`buildWorkers = none`, `Execute` panicked) — refuting the claimed
non-zero divisor; the claim describes the intended behavior and the source
is the slip (the spec's own design notes flag it). -/
theorem c1_worker_url_slot_division_by_zero :
    buildWorkers [{ Begin := 0, End := 9 }]
      [{ DriveId := "d", FileId := "f", FileUrl := "u" },
       { DriveId := "sd", FileId := "f2", FileUrl := "u2" }]
      [{ URL := "der.durl" }] = none ∧
    (Execute 1024 50
      { Mode := RangeGenMode.RangeGenMode_Default, BlockSize := 100,
        SliceParallel := 1 }
      { fileSize := 9, driveId := "d", fileId := "f", probes := [],
        initStateErr := none, instanceInfo := none,
        resolve := ResolveEnv.fileSrc (DurlOutcome.valid "u")
          (UserInfoOutcome.uiOk "d" "r")
          [{ userInfo := some ("sd", "sr"), fileInfo := some "f2",
             durl := DurlOutcome.valid "u2" }],
        genYields := [], monitorErr := none }).resolved = true ∧
    (Execute 1024 50
      { Mode := RangeGenMode.RangeGenMode_Default, BlockSize := 100,
        SliceParallel := 1 }
      { fileSize := 9, driveId := "d", fileId := "f", probes := [],
        initStateErr := none, instanceInfo := none,
        resolve := ResolveEnv.fileSrc (DurlOutcome.valid "u")
          (UserInfoOutcome.uiOk "d" "r")
          [{ userInfo := some ("sd", "sr"), fileInfo := some "f2",
             durl := DurlOutcome.valid "u2" }],
        genYields := [], monitorErr := none }).panicked = true := by
  decide

/-- C3, counterexample: when the primary URL resolution fails with an API
error (as opposed to an invalid URL), `Execute` returns the API error — not
`ErrFileDownloadForbidden` — fires no Fail event, and does not delete the
checkpoint, refuting the claim for this failure mode. -/
theorem c3_api_error_no_fail_cex :
    (Execute 1024 50
      { Mode := RangeGenMode.RangeGenMode_Default, BlockSize := 100,
        SliceParallel := 1 }
      { fileSize := 10, driveId := "d", fileId := "f", probes := [],
        initStateErr := none, instanceInfo := none,
        resolve := ResolveEnv.fileSrc DurlOutcome.apiErr
          UserInfoOutcome.uiNil [],
        genYields := [], monitorErr := none }).resolved = true ∧
    (Execute 1024 50
      { Mode := RangeGenMode.RangeGenMode_Default, BlockSize := 100,
        SliceParallel := 1 }
      { fileSize := 10, driveId := "d", fileId := "f", probes := [],
        initStateErr := none, instanceInfo := none,
        resolve := ResolveEnv.fileSrc DurlOutcome.apiErr
          UserInfoOutcome.uiNil [],
        genYields := [], monitorErr := none }).ret = some Err.apiError ∧
    Event.failed ∉ (Execute 1024 50
      { Mode := RangeGenMode.RangeGenMode_Default, BlockSize := 100,
        SliceParallel := 1 }
      { fileSize := 10, driveId := "d", fileId := "f", probes := [],
        initStateErr := none, instanceInfo := none,
        resolve := ResolveEnv.fileSrc DurlOutcome.apiErr
          UserInfoOutcome.uiNil [],
        genYields := [], monitorErr := none }).events ∧
    (Execute 1024 50
      { Mode := RangeGenMode.RangeGenMode_Default, BlockSize := 100,
        SliceParallel := 1 }
      { fileSize := 10, driveId := "d", fileId := "f", probes := [],
        initStateErr := none, instanceInfo := none,
        resolve := ResolveEnv.fileSrc DurlOutcome.apiErr
          UserInfoOutcome.uiNil [],
        genYields := [], monitorErr := none }).removedInstance = false := by
  decide

/-- C3, amended: when primary URL resolution yields no usable URL (the
`ErrFileDownloadForbidden` paths of both the file source and the album
source), `Execute` fires Cancel and Fail (Cancel fires a second time at the
`Execute`-level check), deletes the checkpoint, and returns
`ErrFileDownloadForbidden`; when the resolution API call itself errors, only
Cancel fires and the API error is returned with the checkpoint kept. -/
theorem c3_forbidden_url_cancel_fail (minPS maxP : Int) (cfg : Config)
    (env : ExecEnv) (hz : ¬ env.fileSize = 0) (hie : env.initStateErr = none)
    (hmode : cfg.Mode = RangeGenMode.RangeGenMode_Default)
    (hres : (getFileAllClientDownloadUrl env.driveId env.fileId env.resolve).err
      = some Err.ErrFileDownloadForbidden) :
    (Execute minPS maxP cfg env).events =
      [Event.cancel, Event.failed, Event.cancel] ∧
    (Execute minPS maxP cfg env).removedInstance = true ∧
    (Execute minPS maxP cfg env).ret = some Err.ErrFileDownloadForbidden := by
  have hr := resolve_forbidden_shape env.driveId env.fileId env.resolve hres
  unfold Execute
  rw [if_neg hz, hie]
  dsimp only
  split
  · rename_i e heq
    rw [hmode] at heq
    obtain ⟨x, hx⟩ := selectBlockSize_default_ok _ _ _
    rw [hx] at heq
    cases heq
  · rw [hr]
    exact ⟨rfl, rfl, rfl⟩

/-- C3, witness: an album-source session whose download-url response holds
neither stream alternatives nor a plain URL. -/
theorem c3_forbidden_url_witness :
    (Execute 1024 50
      { Mode := RangeGenMode.RangeGenMode_Default, BlockSize := 100,
        SliceParallel := 1 }
      { fileSize := 10, driveId := "d", fileId := "f", probes := [],
        initStateErr := none, instanceInfo := none,
        resolve := ResolveEnv.albumSrc "jpg" (AlbumDurlOutcome.ok none ""),
        genYields := [], monitorErr := none }).events =
      [Event.cancel, Event.failed, Event.cancel] ∧
    (Execute 1024 50
      { Mode := RangeGenMode.RangeGenMode_Default, BlockSize := 100,
        SliceParallel := 1 }
      { fileSize := 10, driveId := "d", fileId := "f", probes := [],
        initStateErr := none, instanceInfo := none,
        resolve := ResolveEnv.albumSrc "jpg" (AlbumDurlOutcome.ok none ""),
        genYields := [], monitorErr := none }).removedInstance = true ∧
    (Execute 1024 50
      { Mode := RangeGenMode.RangeGenMode_Default, BlockSize := 100,
        SliceParallel := 1 }
      { fileSize := 10, driveId := "d", fileId := "f", probes := [],
        initStateErr := none, instanceInfo := none,
        resolve := ResolveEnv.albumSrc "jpg" (AlbumDurlOutcome.ok none ""),
        genYields := [], monitorErr := none }).ret =
      some Err.ErrFileDownloadForbidden :=
  c3_forbidden_url_cancel_fail 1024 50
    { Mode := RangeGenMode.RangeGenMode_Default, BlockSize := 100,
      SliceParallel := 1 }
    { fileSize := 10, driveId := "d", fileId := "f", probes := [],
      initStateErr := none, instanceInfo := none,
      resolve := ResolveEnv.albumSrc "jpg" (AlbumDurlOutcome.ok none ""),
      genYields := [], monitorErr := none }
    (by decide) rfl rfl (by decide)

/-- C5: a session whose monitor ends with all workers permanently failed
(monitor error `ErrNoWokers`) makes `Execute` return `ErrNoWokers`; a
session with total size 0 returns nil (it short-circuits before any worker
exists). -/
theorem c5_all_workers_failed_ret (minPS maxP : Int) (cfg : Config)
    (env : ExecEnv) (hm : env.monitorErr = some Err.ErrNoWokers) :
    (env.fileSize = 0 → (Execute minPS maxP cfg env).ret = none) ∧
    ((Execute minPS maxP cfg env).monitorRan = true →
      (Execute minPS maxP cfg env).ret = some Err.ErrNoWokers) := by
  constructor
  · intro h0
    simp [Execute, h0]
  · intro hran
    rcases execute_cases minPS maxP cfg env with h | h
    · rw [hran] at h
      cases h
    · rw [h, hm]

/-- C5, witness: one session that runs the monitor into `ErrNoWokers` and
returns it, and the same session at total size 0 returning nil. -/
theorem c5_all_workers_failed_witness :
    (Execute 1024 50
      { Mode := RangeGenMode.RangeGenMode_Default, BlockSize := 100,
        SliceParallel := 1 }
      { fileSize := 9, driveId := "d", fileId := "f", probes := [],
        initStateErr := none, instanceInfo := none,
        resolve := ResolveEnv.fileSrc (DurlOutcome.valid "u")
          (UserInfoOutcome.uiOk "d" "r") [],
        genYields := [], monitorErr := some Err.ErrNoWokers }).ret =
      some Err.ErrNoWokers ∧
    (Execute 1024 50
      { Mode := RangeGenMode.RangeGenMode_Default, BlockSize := 100,
        SliceParallel := 1 }
      { fileSize := 0, driveId := "d", fileId := "f", probes := [],
        initStateErr := none, instanceInfo := none,
        resolve := ResolveEnv.fileSrc (DurlOutcome.valid "u")
          (UserInfoOutcome.uiOk "d" "r") [],
        genYields := [], monitorErr := some Err.ErrNoWokers }).ret = none := by
  constructor
  · exact (c5_all_workers_failed_ret 1024 50
      { Mode := RangeGenMode.RangeGenMode_Default, BlockSize := 100,
        SliceParallel := 1 }
      { fileSize := 9, driveId := "d", fileId := "f", probes := [],
        initStateErr := none, instanceInfo := none,
        resolve := ResolveEnv.fileSrc (DurlOutcome.valid "u")
          (UserInfoOutcome.uiOk "d" "r") [],
        genYields := [], monitorErr := some Err.ErrNoWokers } rfl).2 (by decide)
  · exact (c5_all_workers_failed_ret 1024 50
      { Mode := RangeGenMode.RangeGenMode_Default, BlockSize := 100,
        SliceParallel := 1 }
      { fileSize := 0, driveId := "d", fileId := "f", probes := [],
        initStateErr := none, instanceInfo := none,
        resolve := ResolveEnv.fileSrc (DurlOutcome.valid "u")
          (UserInfoOutcome.uiOk "d" "r") [],
        genYields := [], monitorErr := some Err.ErrNoWokers } rfl).1 rfl

/-- C6: a zero-size session fires Finish exactly once, never fires Success,
returns nil, probes no URL, resolves no URL, and never touches the
checkpoint store. -/
theorem c6_zero_size_finish_only (minPS maxP : Int) (cfg : Config)
    (env : ExecEnv) (h : env.fileSize = 0) :
    (Execute minPS maxP cfg env).events.count Event.finish = 1 ∧
    Event.success ∉ (Execute minPS maxP cfg env).events ∧
    (Execute minPS maxP cfg env).ret = none ∧
    (Execute minPS maxP cfg env).probed = false ∧
    (Execute minPS maxP cfg env).resolved = false ∧
    (Execute minPS maxP cfg env).initedState = false := by
  have he : Execute minPS maxP cfg env =
      { events := [Event.finish], probed := false, initedState := false,
        resolved := false, monitorRan := false, removedInstance := false,
        workers := [], panicked := false, ret := none } := by
    simp [Execute, h]
  rw [he]
  exact ⟨by decide, by decide, rfl, rfl, rfl, rfl⟩

/-- C6, witness: the zero-size theorem at a concrete session. -/
theorem c6_zero_size_witness :
    (Execute 1024 50
      { Mode := RangeGenMode.RangeGenMode_BlockSize, BlockSize := 100,
        SliceParallel := 0 }
      { fileSize := 0, driveId := "d", fileId := "f",
        probes := [{ url := "u", outcome := ProbeOutcome.fail }],
        initStateErr := none, instanceInfo := none,
        resolve := ResolveEnv.albumSrc "jpg" AlbumDurlOutcome.apiErr,
        genYields := [], monitorErr := none }).events.count Event.finish = 1 ∧
    Event.success ∉ (Execute 1024 50
      { Mode := RangeGenMode.RangeGenMode_BlockSize, BlockSize := 100,
        SliceParallel := 0 }
      { fileSize := 0, driveId := "d", fileId := "f",
        probes := [{ url := "u", outcome := ProbeOutcome.fail }],
        initStateErr := none, instanceInfo := none,
        resolve := ResolveEnv.albumSrc "jpg" AlbumDurlOutcome.apiErr,
        genYields := [], monitorErr := none }).events ∧
    (Execute 1024 50
      { Mode := RangeGenMode.RangeGenMode_BlockSize, BlockSize := 100,
        SliceParallel := 0 }
      { fileSize := 0, driveId := "d", fileId := "f",
        probes := [{ url := "u", outcome := ProbeOutcome.fail }],
        initStateErr := none, instanceInfo := none,
        resolve := ResolveEnv.albumSrc "jpg" AlbumDurlOutcome.apiErr,
        genYields := [], monitorErr := none }).ret = none ∧
    (Execute 1024 50
      { Mode := RangeGenMode.RangeGenMode_BlockSize, BlockSize := 100,
        SliceParallel := 0 }
      { fileSize := 0, driveId := "d", fileId := "f",
        probes := [{ url := "u", outcome := ProbeOutcome.fail }],
        initStateErr := none, instanceInfo := none,
        resolve := ResolveEnv.albumSrc "jpg" AlbumDurlOutcome.apiErr,
        genYields := [], monitorErr := none }).probed = false ∧
    (Execute 1024 50
      { Mode := RangeGenMode.RangeGenMode_BlockSize, BlockSize := 100,
        SliceParallel := 0 }
      { fileSize := 0, driveId := "d", fileId := "f",
        probes := [{ url := "u", outcome := ProbeOutcome.fail }],
        initStateErr := none, instanceInfo := none,
        resolve := ResolveEnv.albumSrc "jpg" AlbumDurlOutcome.apiErr,
        genYields := [], monitorErr := none }).resolved = false ∧
    (Execute 1024 50
      { Mode := RangeGenMode.RangeGenMode_BlockSize, BlockSize := 100,
        SliceParallel := 0 }
      { fileSize := 0, driveId := "d", fileId := "f",
        probes := [{ url := "u", outcome := ProbeOutcome.fail }],
        initStateErr := none, instanceInfo := none,
        resolve := ResolveEnv.albumSrc "jpg" AlbumDurlOutcome.apiErr,
        genYields := [], monitorErr := none }).initedState = false :=
  c6_zero_size_finish_only 1024 50
    { Mode := RangeGenMode.RangeGenMode_BlockSize, BlockSize := 100,
      SliceParallel := 0 }
    { fileSize := 0, driveId := "d", fileId := "f",
      probes := [{ url := "u", outcome := ProbeOutcome.fail }],
      initStateErr := none, instanceInfo := none,
      resolve := ResolveEnv.albumSrc "jpg" AlbumDurlOutcome.apiErr,
      genYields := [], monitorErr := none } rfl

/-- C9, counterexample: with an unrecognized range-generation mode but an
effective parallel count of 1, `SelectBlockSizeAndInitRangeGen` returns the
sentinel −1 and no error — the session does not fail — refuting the claim
for every such configuration. -/
theorem c9_parallel_one_no_error_cex :
    SelectBlockSizeAndInitRangeGen (RangeGenMode.other 7) 100
      { totalSize := 10, rangeListGen := none } 1 =
      Except.ok (-1, { totalSize := 10, rangeListGen := none }) ∧
    blockSizeOf (SelectBlockSizeAndInitRangeGen (RangeGenMode.other 7) 100
      { totalSize := 10, rangeListGen := none } 1) = some (-1) :=
  ⟨rfl, by decide⟩

/-- C9, amended: a mode that is neither Default nor BlockSize makes the
session fail — `SelectBlockSizeAndInitRangeGen` returns
`ErrUnknownRangeGenMode` and `Execute` returns it before resolving URLs or
running the monitor — provided the effective parallel count is not 1 and no
generator was restored from a checkpoint (here: a fresh session with a
configured parallelism of at least 2). -/
theorem c9_unknown_mode_fails (minPS maxP : Int) (cfg : Config)
    (env : ExecEnv) (n : Nat) (hz : ¬ env.fileSize = 0)
    (hie : env.initStateErr = none) (hinst : env.instanceInfo = none)
    (hmode : cfg.Mode = RangeGenMode.other n)
    (hpref : 2 ≤ cfg.SliceParallel) :
    (Execute minPS maxP cfg env).ret = some Err.ErrUnknownRangeGenMode ∧
    (Execute minPS maxP cfg env).monitorRan = false ∧
    (Execute minPS maxP cfg env).resolved = false := by
  unfold Execute
  rw [if_neg hz, hie]
  dsimp only
  rw [hinst]
  simp only [Option.getD_none]
  rw [selectParallel_pref_pos minPS maxP env.fileSize cfg.SliceParallel
    [] (by omega)]
  rw [hmode]
  rw [selectBlockSize_other_err n cfg.BlockSize _ cfg.SliceParallel rfl
    (by omega)]
  exact ⟨rfl, rfl, rfl⟩

/-- C9, witness: a fresh two-thread session with mode value 3. -/
theorem c9_unknown_mode_witness :
    (Execute 1024 50
      { Mode := RangeGenMode.other 3, BlockSize := 100, SliceParallel := 2 }
      { fileSize := 5, driveId := "d", fileId := "f", probes := [],
        initStateErr := none, instanceInfo := none,
        resolve := ResolveEnv.fileSrc (DurlOutcome.valid "u")
          (UserInfoOutcome.uiOk "d" "r") [],
        genYields := [], monitorErr := none }).ret =
      some Err.ErrUnknownRangeGenMode ∧
    (Execute 1024 50
      { Mode := RangeGenMode.other 3, BlockSize := 100, SliceParallel := 2 }
      { fileSize := 5, driveId := "d", fileId := "f", probes := [],
        initStateErr := none, instanceInfo := none,
        resolve := ResolveEnv.fileSrc (DurlOutcome.valid "u")
          (UserInfoOutcome.uiOk "d" "r") [],
        genYields := [], monitorErr := none }).monitorRan = false ∧
    (Execute 1024 50
      { Mode := RangeGenMode.other 3, BlockSize := 100, SliceParallel := 2 }
      { fileSize := 5, driveId := "d", fileId := "f", probes := [],
        initStateErr := none, instanceInfo := none,
        resolve := ResolveEnv.fileSrc (DurlOutcome.valid "u")
          (UserInfoOutcome.uiOk "d" "r") [],
        genYields := [], monitorErr := none }).resolved = false :=
  c9_unknown_mode_fails 1024 50
    { Mode := RangeGenMode.other 3, BlockSize := 100, SliceParallel := 2 }
    { fileSize := 5, driveId := "d", fileId := "f", probes := [],
      initStateErr := none, instanceInfo := none,
      resolve := ResolveEnv.fileSrc (DurlOutcome.valid "u")
        (UserInfoOutcome.uiOk "d" "r") [],
      genYields := [], monitorErr := none } 3
    (by decide) rfl rfl rfl (by decide)

end Downloader
